import Mathlib

/-!
Verification of the highlights-ai detection streaming pipeline.

This file gives a shallow embedding of the NDJSON detection stream
produced by the detect-balls route handler
(src/app/api/detect-balls/route.ts, function POST) and of the client-side
stream consumer (src/components/video-editor.tsx, startBallDetection),
and proves properties of the emitted event streams: cached replay,
fallback behaviour, error classification, persistence, flush cadence and
malformed-line tolerance.
-/

namespace HighlightsAI

/-- A bounding box as carried in a detection record
(video-editor.tsx BallDetection.boxes elements). Numeric payloads are
abstracted to integers; no verified property inspects them. -/
structure Box where
  x : Int
  y : Int
  w : Int
  h : Int
  confidence : Int
  classLabel : String
deriving DecidableEq, Repr

/-- A per-frame detection record: the `data` payload of a `detection`
stream event (video-editor.tsx BallDetection). -/
structure DetectionRecord where
  time : Int
  frame : Nat
  boxes : List Box
deriving DecidableEq, Repr

/-- A well-formed NDJSON stream event, one of the four `type` values of
the streaming protocol in route.ts: meta / detection / done / error,
with the fields each carries there. -/
inductive Event where
  | meta (totalFrames : Nat) (cached : Bool) (fallback : Bool)
  | detection (data : DetectionRecord) (processed : Nat) (total : Nat)
  | done (processed : Nat) (cached : Bool)
  | error (message : String)
deriving DecidableEq, Repr

/-- One line of an NDJSON stream: blank (skipped by both producers and
consumers), malformed (fails JSON.parse), or a well-formed event. -/
inductive RawLine where
  | blank
  | bad (text : String)
  | ok (e : Event)
deriving DecidableEq, Repr

/-- The 400-response message of route.ts line 44. -/
def noVideoMsg : String := "No cached video found. Process a video first."

/-- route.ts line 174. -/
def invalidKeyMsg : String := "Invalid Roboflow API key. Check your ROBOFLOW_API_KEY in .env."

/-- route.ts line 176. -/
def missingKeyMsg : String := "ROBOFLOW_API_KEY is not set. Add it to your .env file."

/-- route.ts line 172. -/
def genericFailMsg : String := "Ball detection failed. Check the server logs for details."

/-- Whether the pattern list is an initial segment of the character
list; embeds the matching step of JavaScript String.prototype.includes. -/
def listStartsWith : List Char → List Char → Bool
  | [], _ => true
  | _ :: _, [] => false
  | p :: ps, c :: cs => (p == c) && listStartsWith ps cs

/-- Substring occurrence over character lists. -/
def listContainsSub (pat : List Char) : List Char → Bool
  | [] => pat.isEmpty
  | c :: cs => listStartsWith pat (c :: cs) || listContainsSub pat cs

/-- JavaScript s.includes(pat), executable in the kernel. -/
def strContains (s pat : String) : Bool :=
  listContainsSub pat.data s.data

/-- The stderr classification of the fallback failure handler
(route.ts lines 171-177): invalid-key wording wins over missing-key
wording, otherwise a generic message. -/
def classifyFallbackError (stderrText : String) : String :=
  if strContains stderrText "Unauthorized" || strContains stderrText "API key"
      || strContains stderrText "RoboflowAPINotAuthorizedError" then
    invalidKeyMsg
  else if strContains stderrText "ROBOFLOW_API_KEY" then
    missingKeyMsg
  else
    genericFailMsg

/-- Outcome of the primary Flask backend interaction (route.ts lines
73-143): either the fetch is unreachable / returns non-ok / has no body
(nothing forwarded), or the body yields a sequence of lines and then
either ends normally (midFail = false) or raises mid-stream
(midFail = true), in which case only the already-read lines were
forwarded. -/
inductive FlaskOutcome where
  | unreachable
  | stream (lines : List RawLine) (midFail : Bool)
deriving DecidableEq, Repr

/-- Outcome of the fallback python execution (route.ts lines 150-168):
either the script succeeds and the detections file parses to a record
list, or the whole attempt raises with the given stderr text. -/
inductive FallbackOutcome where
  | success (dets : List DetectionRecord)
  | failure (stderrText : String)
deriving DecidableEq, Repr

/-- The environment a single POST /api/detect-balls run observes:
whether .cache/input.mp4 exists, the parsed content of
.cache/ball_detections.json if readable, the Flask interaction outcome,
the fallback execution outcome, and whether the cache write succeeds. -/
structure World where
  videoExists : Bool
  cache : Option (List DetectionRecord)
  flask : FlaskOutcome
  fallbackExec : FallbackOutcome
  persistOk : Bool
deriving DecidableEq, Repr

/-- Observable result of one POST run: HTTP status, the NDJSON lines of
the response body in emission order, whether the Flask backend was
contacted, whether the fallback script was executed, the argument of the
cache write if one was attempted, and whether that write failed (it is
only logged). -/
structure RouteResult where
  status : Nat
  events : List RawLine
  flaskCalled : Bool
  fallbackCalled : Bool
  persistAttempt : Option (List DetectionRecord)
  persistFailed : Bool
deriving DecidableEq, Repr

/-- Blank-line test (route.ts line 105 skips such lines entirely). -/
def RawLine.isBlank : RawLine → Bool
  | .blank => true
  | _ => false

/-- route.ts forwards every non-blank Flask line verbatim
(lines 104-115, safeEnqueue of the raw line). -/
def forwardLines (lines : List RawLine) : List RawLine :=
  lines.filter (fun l => !l.isBlank)

/-- The detection payload of a line, when the line is a well-formed
detection event (the parsed.type === "detection" && parsed.data test). -/
def lineDet : RawLine → Option DetectionRecord
  | .ok (.detection d _ _) => some d
  | _ => none

/-- The allDetections accumulator of route.ts lines 92-128: the data
payloads of the detection lines, in stream order. -/
def accumDets (lines : List RawLine) : List DetectionRecord :=
  lines.filterMap lineDet

/-- The cached-replay branch of route.ts lines 56-65: a meta event with
cached: true, one detection event per stored record with
processed = total = record count, then a done event with cached: true. -/
def cachedReplayEvents (dets : List DetectionRecord) : List RawLine :=
  RawLine.ok (.meta dets.length true false)
    :: (dets.map (fun d => RawLine.ok (.detection d dets.length dets.length))
      ++ [RawLine.ok (.done dets.length true)])

/-- The fallback phase of route.ts lines 145-179: a meta event with
fallback: true is sent first; on success every record of the file the
script produced is sent as a detection event followed by done, on
failure a single classified error event is sent. -/
def fallbackEvents (fb : FallbackOutcome) : List RawLine :=
  match fb with
  | .success dets =>
      RawLine.ok (.meta 0 false true)
        :: (dets.map (fun d => RawLine.ok (.detection d dets.length dets.length))
          ++ [RawLine.ok (.done dets.length false)])
  | .failure s =>
      [RawLine.ok (.meta 0 false true), RawLine.ok (.error (classifyFallbackError s))]

/-- Lines forwarded from the primary backend before control reaches the
fallback phase: none when the fetch itself failed, the forwarded lines
when the body raised mid-stream. -/
def primaryPrefix : FlaskOutcome → List RawLine
  | .unreachable => []
  | .stream lines _ => forwardLines lines

/-- Whether the primary interaction throws (fetch failure or mid-stream
body failure), which is what sends route.ts into the catch of line 141. -/
def flaskFailed : FlaskOutcome → Bool
  | .unreachable => true
  | .stream _ midFail => midFail

/-- The POST handler of src/app/api/detect-balls/route.ts as a function
of the observed environment: 400 when no processed video exists, cached
replay when ball_detections.json parses, otherwise the live Flask run
with verbatim forwarding and best-effort persistence, falling back to
the python script on any Flask failure. -/
def detectBallsPOST (w : World) : RouteResult :=
  if w.videoExists = false then
    { status := 400
      events := [RawLine.ok (.error noVideoMsg)]
      flaskCalled := false
      fallbackCalled := false
      persistAttempt := none
      persistFailed := false }
  else
    match w.cache with
    | some dets =>
        { status := 200
          events := cachedReplayEvents dets
          flaskCalled := false
          fallbackCalled := false
          persistAttempt := none
          persistFailed := false }
    | none =>
        match w.flask with
        | .stream lines false =>
            let dets := accumDets lines
            { status := 200
              events := forwardLines lines
              flaskCalled := true
              fallbackCalled := false
              persistAttempt := if dets.isEmpty then none else some dets
              persistFailed := !dets.isEmpty && !w.persistOk }
        | fo =>
            { status := 200
              events := primaryPrefix fo ++ fallbackEvents w.fallbackExec
              flaskCalled := true
              fallbackCalled := true
              persistAttempt := none
              persistFailed := false }

/-- Frame indices of the detection events of a stream, in emission
order. -/
def detFrames (lines : List RawLine) : List Nat :=
  lines.filterMap (fun l => (lineDet l).map DetectionRecord.frame)

/-- The monotonicity invariant of the spec: no detection event is
followed by a detection event with a smaller frame index. -/
def frameMonotone (lines : List RawLine) : Prop :=
  List.Chain' (· ≤ ·) (detFrames lines)

/-- Error-event test. -/
def RawLine.isErrorLine : RawLine → Bool
  | .ok (.error _) => true
  | _ => false

/-- Number of error events in a stream. -/
def countErrors (lines : List RawLine) : Nat :=
  (lines.filter RawLine.isErrorLine).length

/-! ### Client-side stream consumer
Embedding of the line-processing loop of startBallDetection
(src/components/video-editor.tsx lines 84-212). Each incoming line is
paired with the value of Date.now() at the moment it is processed. -/

/-- An NDJSON line together with the clock value observed while
handling it. -/
structure TimedLine where
  now : Nat
  line : RawLine
deriving DecidableEq, Repr

/-- One invocation of the onBallDetectionsLoaded callback: a cadence
flush from the detection handler (with its clock value), a full-list
delivery from the done handler or from the end of the stream, or the
error-path delivery carrying the message. -/
inductive ClientCall where
  | flush (now : Nat) (dets : List DetectionRecord)
  | final (dets : List DetectionRecord)
  | errored (dets : List DetectionRecord) (message : String)
deriving DecidableEq, Repr

/-- Consumer state: accumulatedDetectionsRef, lastFlushRef,
isStreamingRef, whether the estimated-progress timer is running, whether
the handler returned early (error event), and the trace of callback
invocations. -/
structure ClientState where
  accumulated : List DetectionRecord
  lastFlush : Nat
  isStreaming : Bool
  estimating : Bool
  finished : Bool
  calls : List ClientCall
deriving DecidableEq, Repr

/-- Processing of one line by the loop body of video-editor.tsx lines
133-176: blank lines and lines that fail JSON.parse change nothing; a
meta event selects estimated or streamed progress; an error event
delivers the accumulated records with the message and returns; a
detection event appends its payload and flushes when more than 500 ms
have passed since the last flush; a done event delivers the full
accumulated list immediately. -/
def clientStep (s : ClientState) (t : TimedLine) : ClientState :=
  if s.finished then s
  else
    match t.line with
    | .blank => s
    | .bad _ => s
    | .ok (.meta _ _ fallbackFlag) =>
        if fallbackFlag then { s with estimating := true }
        else { s with isStreaming := true, estimating := false }
    | .ok (.error msg) =>
        { s with finished := true
                 calls := s.calls ++ [ClientCall.errored s.accumulated msg] }
    | .ok (.detection d _ _) =>
        let acc := s.accumulated ++ [d]
        if t.now - s.lastFlush > 500 then
          { s with accumulated := acc
                   lastFlush := t.now
                   calls := s.calls ++ [ClientCall.flush t.now acc] }
        else
          { s with accumulated := acc }
    | .ok (.done _ _) =>
        { s with calls := s.calls ++ [ClientCall.final s.accumulated] }

/-- Initial consumer state (video-editor.tsx lines 91-93): empty
accumulator, lastFlushRef primed with the start clock. -/
def clientInit (startTime : Nat) : ClientState :=
  { accumulated := []
    lastFlush := startTime
    isStreaming := false
    estimating := false
    finished := false
    calls := [] }

/-- A whole consumer run: fold the loop body over the stream; when the
loop was not exited by an error event, the final
onBallDetectionsLoaded call of video-editor.tsx line 195 delivers the
full accumulated list. -/
def clientRun (startTime : Nat) (lines : List TimedLine) : ClientState :=
  let s := lines.foldl clientStep (clientInit startTime)
  if s.finished then s
  else { s with calls := s.calls ++ [ClientCall.final s.accumulated] }

/-- Detection payloads of a timed stream, in order. -/
def timedDets (lines : List TimedLine) : List DetectionRecord :=
  lines.filterMap (fun t => lineDet t.line)

/-- Clock values of the cadence flushes in a callback trace. -/
def flushTimes (calls : List ClientCall) : List Nat :=
  calls.filterMap (fun c => match c with
    | ClientCall.flush n _ => some n
    | _ => none)

/-- The cadence relation: consecutive flushes are more than 500 ms
apart. -/
def gapOk (a b : Nat) : Prop := a + 500 < b

/-- Scan helper: does a meta event with fallback: true occur after a
detection event? The flag records whether a detection has been seen. -/
def detBeforeFallbackMetaAux : Bool → List RawLine → Bool
  | _, [] => false
  | _, RawLine.ok (.detection _ _ _) :: rest =>
      detBeforeFallbackMetaAux true rest
  | seen, RawLine.ok (.meta _ _ true) :: rest =>
      seen || detBeforeFallbackMetaAux seen rest
  | seen, _ :: rest => detBeforeFallbackMetaAux seen rest

/-- Whether some meta {fallback: true} event of the stream is preceded
by a detection event. -/
def detBeforeFallbackMeta (lines : List RawLine) : Bool :=
  detBeforeFallbackMetaAux false lines

/-! ### Concrete inputs used by counterexamples and witnesses -/

/-- A detection record for frame 0. -/
def recFrame0 : DetectionRecord := ⟨0, 0, []⟩

/-- A detection record for frame 5. -/
def recFrame5 : DetectionRecord := ⟨5, 5, []⟩

/-- A run in which the Flask body forwards a detection event for frame 5
and then fails mid-stream, after which the fallback script succeeds and
its result file starts at frame 0. -/
def mixWorld : World :=
  { videoExists := true
    cache := none
    flask := .stream [RawLine.ok (.detection recFrame5 1 2)] true
    fallbackExec := .success [recFrame0]
    persistOk := true }

/-- A run with a complete single-record cached result. -/
def cacheWorld : World :=
  { videoExists := true
    cache := some [recFrame0]
    flask := .unreachable
    fallbackExec := .failure ""
    persistOk := true }

/-- A run in which the Flask backend is unreachable and the fallback
script fails with an authentication error on stderr. -/
def authFailWorld : World :=
  { videoExists := true
    cache := none
    flask := .unreachable
    fallbackExec := .failure "RoboflowAPINotAuthorizedError: key rejected"
    persistOk := true }

/-- A run in which the primary backend streams two ordered detection
events to completion. -/
def liveWorld : World :=
  { videoExists := true
    cache := none
    flask := .stream [RawLine.ok (.meta 2 false false),
                      RawLine.ok (.detection recFrame0 1 2),
                      RawLine.ok (.detection recFrame5 2 2),
                      RawLine.ok (.done 2 false)] false
    fallbackExec := .failure ""
    persistOk := true }

/-- A run against an empty cache directory. -/
def noVideoWorld : World :=
  { videoExists := false
    cache := none
    flask := .unreachable
    fallbackExec := .failure ""
    persistOk := true }

/-- A short timed client input: meta, two detections, done. -/
def demoLines : List TimedLine :=
  [⟨10, RawLine.ok (.meta 4 false false)⟩,
   ⟨20, RawLine.ok (.detection recFrame0 1 2)⟩,
   ⟨600, RawLine.ok (.detection recFrame5 2 2)⟩,
   ⟨700, RawLine.ok (.done 2 false)⟩]

/-! ### Helper lemmas -/

theorem detFrames_append (l₁ l₂ : List RawLine) :
    detFrames (l₁ ++ l₂) = detFrames l₁ ++ detFrames l₂ := by
  simp [detFrames]

theorem detFrames_map_det (dets : List DetectionRecord) (p q : Nat) :
    detFrames (dets.map (fun d => RawLine.ok (.detection d p q)))
      = dets.map DetectionRecord.frame := by
  induction dets with
  | nil => rfl
  | cons d rest ih => simp [detFrames, lineDet] at ih ⊢; exact ih

theorem detFrames_forward (lines : List RawLine) :
    detFrames (forwardLines lines) = detFrames lines := by
  induction lines with
  | nil => rfl
  | cons l rest ih =>
      cases l with
      | blank => simpa [forwardLines, detFrames, RawLine.isBlank, lineDet] using ih
      | bad t => simpa [forwardLines, detFrames, RawLine.isBlank, lineDet] using ih
      | ok e =>
          cases e <;>
            simpa [forwardLines, detFrames, RawLine.isBlank, lineDet] using ih

theorem detFrames_cachedReplay (dets : List DetectionRecord) :
    detFrames (cachedReplayEvents dets) = dets.map DetectionRecord.frame := by
  simp [cachedReplayEvents, detFrames, lineDet] at *
  simpa [detFrames] using detFrames_map_det dets dets.length dets.length

theorem detFrames_fallback_success (dets : List DetectionRecord) :
    detFrames (fallbackEvents (.success dets)) = dets.map DetectionRecord.frame := by
  simp [fallbackEvents, detFrames, lineDet]
  simpa [detFrames] using detFrames_map_det dets dets.length dets.length

theorem detFrames_fallback_failure (s : String) :
    detFrames (fallbackEvents (.failure s)) = [] := by
  simp [fallbackEvents, detFrames, lineDet]

theorem countErrors_append (l₁ l₂ : List RawLine) :
    countErrors (l₁ ++ l₂) = countErrors l₁ + countErrors l₂ := by
  simp [countErrors]

theorem countErrors_fallback_failure (s : String) :
    countErrors (fallbackEvents (.failure s)) = 1 := by
  simp [countErrors, fallbackEvents, RawLine.isErrorLine]

theorem clientStep_finished (s : ClientState) (t : TimedLine)
    (h : s.finished = true) : clientStep s t = s := by
  simp [clientStep, h]

theorem foldl_clientStep_finished (lines : List TimedLine) (s : ClientState)
    (h : s.finished = true) : lines.foldl clientStep s = s := by
  induction lines with
  | nil => rfl
  | cons t rest ih => simp [clientStep_finished s t h, ih]

theorem clientStep_error (s : ClientState) (n : Nat) (msg : String)
    (h : s.finished = false) :
    clientStep s ⟨n, RawLine.ok (.error msg)⟩
      = { s with finished := true
                 calls := s.calls ++ [ClientCall.errored s.accumulated msg] } := by
  simp [clientStep, h]

theorem clientStep_noError (s : ClientState) (t : TimedLine)
    (hs : s.finished = false) (ht : t.line.isErrorLine = false) :
    (clientStep s t).finished = false
      ∧ (clientStep s t).accumulated = s.accumulated ++ (lineDet t.line).toList := by
  obtain ⟨n, l⟩ := t
  cases l with
  | blank => simp [clientStep, hs, lineDet]
  | bad txt => simp [clientStep, hs, lineDet]
  | ok e =>
      cases e with
      | meta tf c fb =>
          cases fb <;> simp [clientStep, hs, lineDet]
      | detection d p q =>
          by_cases hf : n - s.lastFlush > 500 <;>
            simp [clientStep, hs, lineDet, hf]
      | done p c => simp [clientStep, hs, lineDet]
      | error m => simp [RawLine.isErrorLine] at ht

theorem foldl_clientStep_noError (lines : List TimedLine) (s : ClientState)
    (hs : s.finished = false) (hl : ∀ t ∈ lines, t.line.isErrorLine = false) :
    (lines.foldl clientStep s).finished = false
      ∧ (lines.foldl clientStep s).accumulated = s.accumulated ++ timedDets lines := by
  induction lines generalizing s with
  | nil => simp [timedDets, hs]
  | cons t rest ih =>
      have ht : t.line.isErrorLine = false := hl t (List.mem_cons_self t rest)
      have hstep := clientStep_noError s t hs ht
      have hrest := ih (clientStep s t) hstep.1
        (fun u hu => hl u (List.mem_cons_of_mem t hu))
      refine ⟨by simpa using hrest.1, ?_⟩
      rw [List.foldl_cons, hrest.2, hstep.2]
      simp only [timedDets, List.append_assoc]
      cases h : lineDet t.line <;> simp [List.filterMap_cons, h]

theorem flushTimes_append (c₁ c₂ : List ClientCall) :
    flushTimes (c₁ ++ c₂) = flushTimes c₁ ++ flushTimes c₂ := by
  simp [flushTimes]

theorem clientStep_flushInv (start : Nat) (s : ClientState) (t : TimedLine)
    (h1 : List.Chain' gapOk (start :: flushTimes s.calls))
    (h2 : (start :: flushTimes s.calls).getLast? = some s.lastFlush) :
    List.Chain' gapOk (start :: flushTimes (clientStep s t).calls)
      ∧ (start :: flushTimes (clientStep s t).calls).getLast?
          = some (clientStep s t).lastFlush := by
  by_cases hs : s.finished = true
  · simp [clientStep_finished s t hs, h1, h2]
  · rw [Bool.not_eq_true] at hs
    obtain ⟨n, l⟩ := t
    cases l with
    | blank => simpa [clientStep, hs] using ⟨h1, h2⟩
    | bad txt => simpa [clientStep, hs] using ⟨h1, h2⟩
    | ok e =>
        cases e with
        | meta tf c fb =>
            cases fb <;> simpa [clientStep, hs] using ⟨h1, h2⟩
        | error m =>
            simpa [clientStep, hs, flushTimes_append, flushTimes] using ⟨h1, h2⟩
        | done p c =>
            simpa [clientStep, hs, flushTimes_append, flushTimes] using ⟨h1, h2⟩
        | detection d p q =>
            by_cases hf : n - s.lastFlush > 500
            · have hgap : gapOk s.lastFlush n := by
                simp only [gapOk]; omega
              have hft : flushTimes (s.calls ++ [ClientCall.flush n (s.accumulated ++ [d])])
                  = flushTimes s.calls ++ [n] := by
                simp [flushTimes_append, flushTimes]
              have hcons : start :: (flushTimes s.calls ++ [n])
                  = (start :: flushTimes s.calls) ++ [n] := by simp
              constructor
              · simp only [clientStep, hs, if_false, Bool.false_eq_true, hf, if_true]
                rw [hft, hcons, List.chain'_append]
                refine ⟨h1, List.chain'_singleton n, ?_⟩
                intro x hx y hy
                rw [h2] at hx
                simp only [Option.mem_def, Option.some_inj] at hx
                simp only [List.head?_cons, Option.mem_def, Option.some_inj] at hy
                simp only [gapOk] at hgap ⊢
                omega
              · simp only [clientStep, hs, if_false, Bool.false_eq_true, hf, if_true]
                rw [hft, ← List.cons_append, List.getLast?_append_cons]
                simp
            · simpa [clientStep, hs, hf] using ⟨h1, h2⟩

theorem foldl_clientStep_flushInv (start : Nat) (lines : List TimedLine)
    (s : ClientState)
    (h1 : List.Chain' gapOk (start :: flushTimes s.calls))
    (h2 : (start :: flushTimes s.calls).getLast? = some s.lastFlush) :
    List.Chain' gapOk (start :: flushTimes (lines.foldl clientStep s).calls)
      ∧ (start :: flushTimes (lines.foldl clientStep s).calls).getLast?
          = some (lines.foldl clientStep s).lastFlush := by
  induction lines generalizing s with
  | nil => exact ⟨h1, h2⟩
  | cons t rest ih =>
      have hstep := clientStep_flushInv start s t h1 h2
      simpa using ih (clientStep s t) hstep.1 hstep.2

theorem aux_detections_done (dets : List DetectionRecord) (seen : Bool)
    (p q n : Nat) (c : Bool) :
    detBeforeFallbackMetaAux seen
      (dets.map (fun d => RawLine.ok (.detection d p q)) ++ [RawLine.ok (.done n c)])
      = false := by
  induction dets generalizing seen with
  | nil => rfl
  | cons d rest ih => simpa [detBeforeFallbackMetaAux] using ih true

theorem aux_fallbackEvents (fb : FallbackOutcome) :
    detBeforeFallbackMetaAux false (fallbackEvents fb) = false := by
  cases fb with
  | success dets =>
      simpa [fallbackEvents, detBeforeFallbackMetaAux] using
        aux_detections_done dets false dets.length dets.length dets.length false
  | failure s => rfl

theorem aux_prepend_noDet (pre rest : List RawLine) (h : detFrames pre = []) :
    detBeforeFallbackMetaAux false (pre ++ rest)
      = detBeforeFallbackMetaAux false rest := by
  induction pre with
  | nil => rfl
  | cons l pre' ih =>
      cases l with
      | blank =>
          rw [List.cons_append]
          rw [detFrames, List.filterMap_cons] at h
          simp only [lineDet, Option.map_none'] at h
          simpa [detBeforeFallbackMetaAux] using ih h
      | bad t =>
          rw [List.cons_append]
          rw [detFrames, List.filterMap_cons] at h
          simp only [lineDet, Option.map_none'] at h
          simpa [detBeforeFallbackMetaAux] using ih h
      | ok e =>
          cases e with
          | detection d p q =>
              rw [detFrames, List.filterMap_cons] at h
              simp [lineDet] at h
          | meta tf c fb =>
              rw [List.cons_append]
              rw [detFrames, List.filterMap_cons] at h
              simp only [lineDet, Option.map_none'] at h
              cases fb <;> simpa [detBeforeFallbackMetaAux] using ih h
          | done p c =>
              rw [List.cons_append]
              rw [detFrames, List.filterMap_cons] at h
              simp only [lineDet, Option.map_none'] at h
              simpa [detBeforeFallbackMetaAux] using ih h
          | error m =>
              rw [List.cons_append]
              rw [detFrames, List.filterMap_cons] at h
              simp only [lineDet, Option.map_none'] at h
              simpa [detBeforeFallbackMetaAux] using ih h

theorem clientStep_bad (s : ClientState) (n : Nat) (txt : String) :
    clientStep s ⟨n, RawLine.bad txt⟩ = s := by
  simp [clientStep]

/-! ### Claim theorems -/

/-- Claim C10: when no processed input video exists, POST
/api/detect-balls answers 400 with a body that is a single NDJSON error
line, emits no detection events, and contacts neither the Flask backend
nor the fallback script. -/
theorem no_video_400_no_backend (w : World) (hv : w.videoExists = false) :
    (detectBallsPOST w).status = 400
    ∧ (detectBallsPOST w).events = [RawLine.ok (.error noVideoMsg)]
    ∧ detFrames (detectBallsPOST w).events = []
    ∧ (detectBallsPOST w).flaskCalled = false
    ∧ (detectBallsPOST w).fallbackCalled = false := by
  simp [detectBallsPOST, hv, detFrames, lineDet]

/-- Witness for C10 at the concrete empty-cache world. -/
theorem no_video_400_no_backend_witness :
    noVideoWorld.videoExists = false
    ∧ ((detectBallsPOST noVideoWorld).status = 400
      ∧ (detectBallsPOST noVideoWorld).events = [RawLine.ok (.error noVideoMsg)]
      ∧ detFrames (detectBallsPOST noVideoWorld).events = []
      ∧ (detectBallsPOST noVideoWorld).flaskCalled = false
      ∧ (detectBallsPOST noVideoWorld).fallbackCalled = false) :=
  ⟨rfl, no_video_400_no_backend noVideoWorld rfl⟩

/-- Claim C3: when a complete cached detection result exists, the stream
is produced entirely from the cached records and neither the Flask
backend nor the fallback script is invoked. -/
theorem cached_replay_zero_backend (w : World) (dets : List DetectionRecord)
    (hv : w.videoExists = true) (hc : w.cache = some dets) :
    (detectBallsPOST w).flaskCalled = false
    ∧ (detectBallsPOST w).fallbackCalled = false
    ∧ (detectBallsPOST w).persistAttempt = none
    ∧ (detectBallsPOST w).events = cachedReplayEvents dets := by
  simp [detectBallsPOST, hv, hc]

/-- Witness for C3 at the concrete cached world. -/
theorem cached_replay_zero_backend_witness :
    cacheWorld.videoExists = true ∧ cacheWorld.cache = some [recFrame0]
    ∧ ((detectBallsPOST cacheWorld).flaskCalled = false
      ∧ (detectBallsPOST cacheWorld).fallbackCalled = false
      ∧ (detectBallsPOST cacheWorld).persistAttempt = none
      ∧ (detectBallsPOST cacheWorld).events = cachedReplayEvents [recFrame0]) :=
  ⟨rfl, rfl, cached_replay_zero_backend cacheWorld [recFrame0] rfl rfl⟩

/-- Counterexample to C2 as stated: for the cached single-record world
the emitted stream is not of the claimed shape detection events first,
then the meta event, then done — the meta event comes first. -/
theorem cached_replay_order_cx :
    (detectBallsPOST cacheWorld).events
      ≠ [RawLine.ok (.detection recFrame0 1 1), RawLine.ok (.meta 1 true false),
         RawLine.ok (.done 1 true)] := by decide

/-- Claim C2 (amended): on a complete cached result the stream is one
meta event with cached: true first, then every stored record as a
detection event in stored order, then one done event with cached: true,
and nothing further. -/
theorem cached_replay_shape (w : World) (dets : List DetectionRecord)
    (hv : w.videoExists = true) (hc : w.cache = some dets) :
    (detectBallsPOST w).events
      = RawLine.ok (.meta dets.length true false)
          :: (dets.map (fun d => RawLine.ok (.detection d dets.length dets.length))
            ++ [RawLine.ok (.done dets.length true)])
    ∧ (detectBallsPOST w).status = 200 := by
  simp [detectBallsPOST, hv, hc, cachedReplayEvents]

/-- Witness for the amended C2 at the concrete cached world. -/
theorem cached_replay_shape_witness :
    cacheWorld.videoExists = true ∧ cacheWorld.cache = some [recFrame0]
    ∧ ((detectBallsPOST cacheWorld).events
        = RawLine.ok (.meta 1 true false)
            :: ([recFrame0].map (fun d => RawLine.ok (.detection d 1 1))
              ++ [RawLine.ok (.done 1 true)])
      ∧ (detectBallsPOST cacheWorld).status = 200) :=
  ⟨rfl, rfl, cached_replay_shape cacheWorld [recFrame0] rfl rfl⟩

/-- Claim C7: on a live run in which the primary stream completes, the
accumulated detection records (when any exist) are handed to the cache
write exactly as accumulated, and a failing write changes neither the
emitted stream nor the status nor the terminal behaviour — it is only
recorded as a logged failure. -/
theorem live_run_persistence (w : World) (lines : List RawLine)
    (hv : w.videoExists = true) (hc : w.cache = none)
    (hf : w.flask = .stream lines false) :
    ((accumDets lines).isEmpty = false →
        (detectBallsPOST w).persistAttempt = some (accumDets lines))
    ∧ (∀ b : Bool,
        (detectBallsPOST { w with persistOk := b }).events
            = (detectBallsPOST w).events
        ∧ (detectBallsPOST { w with persistOk := b }).status
            = (detectBallsPOST w).status
        ∧ (detectBallsPOST { w with persistOk := b }).fallbackCalled = false
        ∧ countErrors (detectBallsPOST { w with persistOk := b }).events
            = countErrors (forwardLines lines))
    ∧ (detectBallsPOST { w with persistOk := false }).persistFailed
        = !(accumDets lines).isEmpty := by
  refine ⟨?_, ?_, ?_⟩
  · intro h
    simp [detectBallsPOST, hv, hc, hf, h]
  · intro b
    simp [detectBallsPOST, hv, hc, hf]
  · simp [detectBallsPOST, hv, hc, hf]

/-- Witness for C7 at the concrete complete live world. -/
theorem live_run_persistence_witness :
    liveWorld.videoExists = true ∧ liveWorld.cache = none
    ∧ liveWorld.flask = .stream [RawLine.ok (.meta 2 false false),
        RawLine.ok (.detection recFrame0 1 2),
        RawLine.ok (.detection recFrame5 2 2),
        RawLine.ok (.done 2 false)] false
    ∧ (((accumDets [RawLine.ok (.meta 2 false false),
          RawLine.ok (.detection recFrame0 1 2),
          RawLine.ok (.detection recFrame5 2 2),
          RawLine.ok (.done 2 false)]).isEmpty = false →
        (detectBallsPOST liveWorld).persistAttempt
          = some (accumDets [RawLine.ok (.meta 2 false false),
              RawLine.ok (.detection recFrame0 1 2),
              RawLine.ok (.detection recFrame5 2 2),
              RawLine.ok (.done 2 false)]))) := by
  refine ⟨rfl, rfl, rfl, ?_⟩
  exact (live_run_persistence liveWorld _ rfl rfl rfl).1

/-- Claim C5: if the fallback path also fails, the stream ends with the
single classified error event: invalid-key wording yields the
invalid-API-key message, otherwise missing-key wording yields the
missing-key message, otherwise the generic failure message. -/
theorem fallback_failure_classified (w : World) (stderrText : String)
    (hv : w.videoExists = true) (hc : w.cache = none)
    (hff : flaskFailed w.flask = true)
    (hfb : w.fallbackExec = .failure stderrText)
    (hpre : countErrors (primaryPrefix w.flask) = 0) :
    countErrors (detectBallsPOST w).events = 1
    ∧ (detectBallsPOST w).events.getLast?
        = some (RawLine.ok (.error (classifyFallbackError stderrText)))
    ∧ ((strContains stderrText "Unauthorized" || strContains stderrText "API key"
          || strContains stderrText "RoboflowAPINotAuthorizedError") = true →
        classifyFallbackError stderrText = invalidKeyMsg)
    ∧ ((strContains stderrText "Unauthorized" || strContains stderrText "API key"
          || strContains stderrText "RoboflowAPINotAuthorizedError") = false →
        strContains stderrText "ROBOFLOW_API_KEY" = true →
        classifyFallbackError stderrText = missingKeyMsg)
    ∧ ((strContains stderrText "Unauthorized" || strContains stderrText "API key"
          || strContains stderrText "RoboflowAPINotAuthorizedError") = false →
        strContains stderrText "ROBOFLOW_API_KEY" = false →
        classifyFallbackError stderrText = genericFailMsg) := by
  have hshape : (detectBallsPOST w).events
      = primaryPrefix w.flask ++ fallbackEvents (.failure stderrText) := by
    cases hw : w.flask with
    | unreachable => simp [detectBallsPOST, hv, hc, hw, hfb, primaryPrefix]
    | stream lines midFail =>
        cases midFail with
        | false => rw [hw] at hff; simp [flaskFailed] at hff
        | true => simp [detectBallsPOST, hv, hc, hw, hfb, primaryPrefix]
  refine ⟨?_, ?_, ?_, ?_, ?_⟩
  · rw [hshape, countErrors_append, hpre, countErrors_fallback_failure]
  · rw [hshape]
    simp [fallbackEvents]
  · intro h
    simp [classifyFallbackError, h]
  · intro h1 h2
    simp only [Bool.or_eq_false_iff] at h1
    simp [classifyFallbackError, h1.1, h1.2, h2]
  · intro h1 h2
    simp only [Bool.or_eq_false_iff] at h1
    simp [classifyFallbackError, h1.1, h1.2, h2]

/-- Witness for C5 at the concrete auth-failure world. -/
theorem fallback_failure_classified_witness :
    authFailWorld.videoExists = true ∧ authFailWorld.cache = none
    ∧ flaskFailed authFailWorld.flask = true
    ∧ authFailWorld.fallbackExec
        = .failure "RoboflowAPINotAuthorizedError: key rejected"
    ∧ countErrors (primaryPrefix authFailWorld.flask) = 0
    ∧ (countErrors (detectBallsPOST authFailWorld).events = 1
      ∧ (detectBallsPOST authFailWorld).events.getLast?
          = some (RawLine.ok (.error (classifyFallbackError
              "RoboflowAPINotAuthorizedError: key rejected")))
      ∧ classifyFallbackError "RoboflowAPINotAuthorizedError: key rejected"
          = invalidKeyMsg) := by
  have h := fallback_failure_classified authFailWorld
    "RoboflowAPINotAuthorizedError: key rejected" rfl rfl rfl rfl rfl
  exact ⟨rfl, rfl, rfl, rfl, rfl, h.1, h.2.1, h.2.2.1 (by decide)⟩

/-- Counterexample to C1 as stated: in the mixed run — the primary
stream forwards a detection event for frame 5 and then fails, after
which the successful fallback replays its file from frame 0 — a later
detection event carries a smaller frame index than an earlier one. -/
theorem frame_monotone_cx : ¬ frameMonotone (detectBallsPOST mixWorld).events := by
  have h : detFrames (detectBallsPOST mixWorld).events = [5, 0] := by decide
  rw [frameMonotone, h]
  simp [List.chain'_cons]

/-- Claim C1 (amended): detection frame indices along the stream are
nondecreasing whenever each source is ordered (the cached records, the
forwarded primary lines, the fallback file) and the run does not mix a
partially-forwarded primary stream with a subsequent fallback replay;
when the primary stream fails after forwarding detection events the
fallback re-emits from the start of its file and a smaller frame index
can follow. -/
theorem frame_monotone_unmixed (w : World)
    (hc : ∀ dets, w.cache = some dets →
        List.Chain' (· ≤ ·) (dets.map DetectionRecord.frame))
    (hf : ∀ lines midFail, w.flask = .stream lines midFail →
        List.Chain' (· ≤ ·) (detFrames lines))
    (hb : ∀ dets, w.fallbackExec = .success dets →
        List.Chain' (· ≤ ·) (dets.map DetectionRecord.frame))
    (hmix : ∀ lines, w.flask = .stream lines true →
        detFrames (forwardLines lines) = []) :
    frameMonotone (detectBallsPOST w).events := by
  rw [frameMonotone]
  cases hv : w.videoExists with
  | false =>
      have h := (no_video_400_no_backend w hv).2.2.1
      rw [h]
      exact List.chain'_nil
  | true =>
      cases hcc : w.cache with
      | some dets =>
          have h := (cached_replay_zero_backend w dets hv hcc).2.2.2
          rw [h, detFrames_cachedReplay]
          exact hc dets hcc
      | none =>
          cases hw : w.flask with
          | unreachable =>
              cases hfb : w.fallbackExec with
              | success dets =>
                  simp only [detectBallsPOST, hv, hcc, hw, hfb]
                  simp only [Bool.true_eq_false, if_false, primaryPrefix,
                    List.nil_append]
                  rw [detFrames_fallback_success]
                  exact hb dets hfb
              | failure s =>
                  simp only [detectBallsPOST, hv, hcc, hw, hfb]
                  simp only [Bool.true_eq_false, if_false, primaryPrefix,
                    List.nil_append]
                  rw [detFrames_fallback_failure]
                  exact List.chain'_nil
          | stream lines midFail =>
              cases midFail with
              | false =>
                  simp only [detectBallsPOST, hv, hcc, hw]
                  simp only [Bool.true_eq_false, if_false]
                  rw [detFrames_forward]
                  exact hf lines false hw
              | true =>
                  cases hfb : w.fallbackExec with
                  | success dets =>
                      simp only [detectBallsPOST, hv, hcc, hw, hfb]
                      simp only [Bool.true_eq_false, if_false, primaryPrefix]
                      rw [detFrames_append, hmix lines hw,
                        detFrames_fallback_success, List.nil_append]
                      exact hb dets hfb
                  | failure s =>
                      simp only [detectBallsPOST, hv, hcc, hw, hfb]
                      simp only [Bool.true_eq_false, if_false, primaryPrefix]
                      rw [detFrames_append, hmix lines hw,
                        detFrames_fallback_failure]
                      exact List.chain'_nil

/-- Witness for the amended C1 at the concrete ordered complete live
world. -/
theorem frame_monotone_unmixed_witness :
    frameMonotone (detectBallsPOST liveWorld).events :=
  frame_monotone_unmixed liveWorld
    (by intro dets h; simp [liveWorld] at h)
    (by
      intro lines midFail h
      simp only [liveWorld] at h
      cases h with
      | refl =>
          have hd : detFrames [RawLine.ok (.meta 2 false false),
              RawLine.ok (.detection recFrame0 1 2),
              RawLine.ok (.detection recFrame5 2 2),
              RawLine.ok (.done 2 false)] = [0, 5] := by decide
          rw [hd]
          simp [List.chain'_pair])
    (by intro dets h; simp [liveWorld] at h)
    (by
      intro lines h
      simp only [liveWorld] at h
      cases h)

/-- Counterexample to C4 as stated: in the mixed run the primary stream
forwards a detection event before failing, so the meta event with
fallback: true is preceded by a detection event that originated from the
primary backend path. -/
theorem fallback_meta_preceded_cx :
    detBeforeFallbackMeta (detectBallsPOST mixWorld).events = true := by decide

/-- Claim C4 (amended): the fallback path is entered on any primary
backend failure, also mid-stream; a meta event with fallback: true is
preceded by no detection event exactly when the primary backend failed
before any detection line had been forwarded. -/
theorem fallback_meta_unpreceded (w : World)
    (hv : w.videoExists = true) (hc : w.cache = none)
    (hff : flaskFailed w.flask = true)
    (hpre : detFrames (primaryPrefix w.flask) = []) :
    (detectBallsPOST w).fallbackCalled = true
    ∧ detBeforeFallbackMeta (detectBallsPOST w).events = false := by
  cases hw : w.flask with
  | unreachable =>
      refine ⟨by simp [detectBallsPOST, hv, hc, hw], ?_⟩
      simp only [detectBallsPOST, hv, hc, hw, Bool.true_eq_false, if_false,
        primaryPrefix, List.nil_append]
      exact aux_fallbackEvents w.fallbackExec
  | stream lines midFail =>
      cases midFail with
      | false => rw [hw] at hff; simp [flaskFailed] at hff
      | true =>
          refine ⟨by simp [detectBallsPOST, hv, hc, hw], ?_⟩
          simp only [detectBallsPOST, hv, hc, hw, Bool.true_eq_false, if_false,
            primaryPrefix]
          rw [hw, primaryPrefix] at hpre
          rw [detBeforeFallbackMeta, aux_prepend_noDet _ _ hpre]
          exact aux_fallbackEvents w.fallbackExec

/-- Witness for the amended C4 at the concrete unreachable-backend
world. -/
theorem fallback_meta_unpreceded_witness :
    authFailWorld.videoExists = true ∧ authFailWorld.cache = none
    ∧ flaskFailed authFailWorld.flask = true
    ∧ detFrames (primaryPrefix authFailWorld.flask) = []
    ∧ ((detectBallsPOST authFailWorld).fallbackCalled = true
      ∧ detBeforeFallbackMeta (detectBallsPOST authFailWorld).events = false) :=
  ⟨rfl, rfl, rfl, rfl, fallback_meta_unpreceded authFailWorld rfl rfl rfl rfl⟩

/-- Claim C6: when the consumer receives a terminal error event, the
callback is invoked with the full list of detection records accumulated
before the error together with the message, the loop stops, and nothing
already received is discarded. -/
theorem error_event_delivers_accumulated (start : Nat) (pre rest : List TimedLine)
    (n : Nat) (msg : String)
    (hpre : ∀ t ∈ pre, t.line.isErrorLine = false) :
    (clientRun start (pre ++ ⟨n, RawLine.ok (.error msg)⟩ :: rest)).calls
      = (pre.foldl clientStep (clientInit start)).calls
          ++ [ClientCall.errored (timedDets pre) msg] := by
  have h0 := foldl_clientStep_noError pre (clientInit start) rfl hpre
  simp only [clientRun, List.foldl_append, List.foldl_cons]
  rw [clientStep_error _ n msg h0.1]
  rw [foldl_clientStep_finished rest _ rfl]
  simp only [if_true]
  rw [h0.2]
  simp [clientInit]

/-- Witness for C6: a concrete error-terminated stream delivers both
accumulated records with the message. -/
theorem error_event_delivers_accumulated_witness :
    (∀ t ∈ demoLines, t.line.isErrorLine = false)
    ∧ (clientRun 0 (demoLines ++ ⟨800, RawLine.ok (.error "boom")⟩ :: [])).calls
        = (demoLines.foldl clientStep (clientInit 0)).calls
            ++ [ClientCall.errored (timedDets demoLines) "boom"] :=
  ⟨by decide, error_event_delivers_accumulated 0 demoLines [] 800 "boom" (by decide)⟩

/-- Claim C8: cadence flushes of the consumer are pairwise more than
500 ms apart (measured from the run start), and a done event flushes
the full accumulated list immediately, with no cadence condition. -/
theorem flush_cadence_bounded :
    (∀ (start : Nat) (lines : List TimedLine),
        List.Chain' gapOk (start :: flushTimes (clientRun start lines).calls))
    ∧ (∀ (s : ClientState) (n p : Nat) (c : Bool), s.finished = false →
        (clientStep s ⟨n, RawLine.ok (.done p c)⟩).calls
          = s.calls ++ [ClientCall.final s.accumulated]) := by
  constructor
  · intro start lines
    have h := foldl_clientStep_flushInv start lines (clientInit start)
      (by simp [clientInit, flushTimes]) (by simp [clientInit, flushTimes])
    simp only [clientRun]
    by_cases hfin : (lines.foldl clientStep (clientInit start)).finished = true
    · simpa [hfin] using h.1
    · rw [Bool.not_eq_true] at hfin
      simpa [hfin, flushTimes_append, flushTimes] using h.1
  · intro s n p c h
    simp [clientStep, h]

/-- Witness for C8 at the concrete demo stream and a concrete done
step. -/
theorem flush_cadence_bounded_witness :
    List.Chain' gapOk (0 :: flushTimes (clientRun 0 demoLines).calls)
    ∧ (clientStep (clientInit 0) ⟨700, RawLine.ok (.done 2 false)⟩).calls
        = (clientInit 0).calls ++ [ClientCall.final (clientInit 0).accumulated] :=
  ⟨flush_cadence_bounded.1 0 demoLines,
   flush_cadence_bounded.2 (clientInit 0) 700 2 false rfl⟩

/-- Claim C9: a malformed line is skipped without aborting: the consumer
run over a stream with a malformed line inserted equals the run without
it, and on the route side the detection accumulator likewise ignores the
malformed line. -/
theorem malformed_line_skipped :
    (∀ (start : Nat) (pre post : List TimedLine) (n : Nat) (txt : String),
        clientRun start (pre ++ ⟨n, RawLine.bad txt⟩ :: post)
          = clientRun start (pre ++ post))
    ∧ (∀ (pre post : List RawLine) (txt : String),
        accumDets (pre ++ RawLine.bad txt :: post) = accumDets (pre ++ post)) := by
  constructor
  · intro start pre post n txt
    simp only [clientRun, List.foldl_append, List.foldl_cons, clientStep_bad]
  · intro pre post txt
    simp [accumDets, List.filterMap_append, List.filterMap_cons, lineDet]

end HighlightsAI
